import Mathlib

/-!
Verification of the two scripts of this repository:
  src/test_websocket.py   (the SmokeTester)
  src/fix_plugin_configs.py (the FixtureWriter)

The SmokeTester is embedded as a function from a fault environment (which
awaited operation raises, and with what message) to the observable event
trace of the run together with the process exit status.  The FixtureWriter
is embedded as the literal configuration text of the source together with a
template-substitution renderer and an explicit file-system model for the
write step.
-/

/-- Observable events of one run of the smoke-test script.
`connectCall` is emitted when `websockets.connect` is awaited (the resource
acquisition begins), `connected` when the handshake succeeds and the
`async with` body is entered, `closed` when the scoped connection is
released by `__aexit__`.  `sleep` and `send` record completed awaits, and
`printed` records a line written to standard output. -/
inductive Event where
  | connectCall : Event
  | connected : Event
  | sleep (secs : Nat) : Event
  | send (payload : String) : Event
  | closed : Event
  | printed (s : String) : Event
deriving DecidableEq

/-- Fault environment of one run: for each awaited operation of
`test_websocket`, either `none` (the await completes normally) or
`some msg` (the await raises an exception whose message is `msg`). -/
structure Env where
  connectResult : Option String
  sleep1Result : Option String
  sendResult : Option String
  sleep2Result : Option String
deriving DecidableEq

/-- Embedding of `test_websocket` from src/test_websocket.py (together with
the `asyncio.run` entry point): returns the event trace of the run and the
process exit status.  The `async with` block guarantees the connection is
closed before control reaches the `except` handler whenever the body
raises; on any caught exception the script prints `Error: {e}` and calls
`sys.exit(1)`; on normal completion the process exits with status 0. -/
def test_websocket (env : Env) : List Event × Nat :=
  match env.connectResult with
  | some m => ([.connectCall, .printed ("Error: " ++ m)], 1)
  | none =>
    match env.sleep1Result with
    | some m =>
      ([.connectCall, .connected, .printed "WebSocket connected successfully!",
        .closed, .printed ("Error: " ++ m)], 1)
    | none =>
      match env.sendResult with
      | some m =>
        ([.connectCall, .connected, .printed "WebSocket connected successfully!",
          .sleep 1, .closed, .printed ("Error: " ++ m)], 1)
      | none =>
        match env.sleep2Result with
        | some m =>
          ([.connectCall, .connected, .printed "WebSocket connected successfully!",
            .sleep 1, .send "Hello WebSocket", .closed, .printed ("Error: " ++ m)], 1)
        | none =>
          ([.connectCall, .connected, .printed "WebSocket connected successfully!",
            .sleep 1, .send "Hello WebSocket", .sleep 1,
            .printed "WebSocket connection stable - no crashes!", .closed], 0)

/-- The message of the first exception the run encounters, if any: the
script reaches a later await only when every earlier one completed. -/
def raisedDuring (env : Env) : Option String :=
  match env.connectResult with
  | some m => some m
  | none =>
    match env.sleep1Result with
    | some m => some m
    | none =>
      match env.sendResult with
      | some m => some m
      | none => env.sleep2Result

/-- Modelled from the spec: the `TestOutcome` enum of §3 is not present in
src/test_websocket.py; the source reports the outcome only through the
process exit status, so the outcome is read off the exit status. -/
inductive TestOutcome where
  | Success : TestOutcome
  | Failed : TestOutcome
deriving DecidableEq

/-- Modelled from the spec: maps a run to the spec's `TestOutcome`. -/
def outcome (env : Env) : TestOutcome :=
  if (test_websocket env).2 = 0 then .Success else .Failed

def isConnectCall : Event → Bool
  | .connectCall => true
  | _ => false

def isConnected : Event → Bool
  | .connected => true
  | _ => false

def isClosed : Event → Bool
  | .closed => true
  | _ => false

def isSendEvent : Event → Bool
  | .send _ => true
  | _ => false

def isPrinted : Event → Bool
  | .printed _ => true
  | _ => false

/-- An error diagnostic never coincides with the success message: the two
strings differ already in their first character. -/
theorem errMsg_ne_stable (m : String) :
    "Error: " ++ m ≠ "WebSocket connection stable - no crashes!" := by
  intro h
  have h1 : ("Error: " ++ m).data.take 1 =
      ("WebSocket connection stable - no crashes!" : String).data.take 1 := by rw [h]
  rw [String.data_append] at h1
  have h2 : (['E'] : List Char) = ['W'] := h1
  exact absurd h2 (by decide)

/-- Claim C2: if the endpoint is reachable and no operation raises, the run
performs connect, wait 1 s, send "Hello WebSocket", wait 1 s, close — in
that order — exits with status 0 and yields the Success outcome. -/
theorem smoke_success (env : Env)
    (h1 : env.connectResult = none) (h2 : env.sleep1Result = none)
    (h3 : env.sendResult = none) (h4 : env.sleep2Result = none) :
    test_websocket env =
      ([.connectCall, .connected, .printed "WebSocket connected successfully!",
        .sleep 1, .send "Hello WebSocket", .sleep 1,
        .printed "WebSocket connection stable - no crashes!", .closed], 0) ∧
    (test_websocket env).1.filter (fun e => !(isPrinted e)) =
      [.connectCall, .connected, .sleep 1, .send "Hello WebSocket", .sleep 1, .closed] ∧
    outcome env = TestOutcome.Success := by
  obtain ⟨c, s1, sd, s2⟩ := env
  simp only at h1 h2 h3 h4
  subst h1; subst h2; subst h3; subst h4
  refine ⟨rfl, by decide, rfl⟩

/-- Concrete witness for `smoke_success`: the all-fault-free environment. -/
theorem smoke_success_witness :
    test_websocket ⟨none, none, none, none⟩ =
      ([.connectCall, .connected, .printed "WebSocket connected successfully!",
        .sleep 1, .send "Hello WebSocket", .sleep 1,
        .printed "WebSocket connection stable - no crashes!", .closed], 0) ∧
    (test_websocket ⟨none, none, none, none⟩).1.filter (fun e => !(isPrinted e)) =
      [.connectCall, .connected, .sleep 1, .send "Hello WebSocket", .sleep 1, .closed] ∧
    outcome ⟨none, none, none, none⟩ = TestOutcome.Success :=
  smoke_success ⟨none, none, none, none⟩ rfl rfl rfl rfl

/-- The success message never coincides with an error diagnostic: the two
strings differ already in their first character. -/
theorem stable_ne_errMsg (m : String) :
    ("WebSocket connection stable - no crashes!" : String) ≠ "Error: " ++ m := by
  intro h
  have h1 : ("WebSocket connection stable - no crashes!" : String).data.take 1 =
      ("Error: " ++ m).data.take 1 := by rw [h]
  rw [String.data_append] at h1
  have h2 : (['W'] : List Char) = ['E'] := h1
  exact absurd h2 (by decide)

/-- Claim C1: if any exception is raised during the handshake, the payload
send, or either wait, then its diagnostic message is printed, the process
exits with a non-zero status, no retry is attempted (exactly one connect
call and at most one send occur), and no success verdict is reported (the
stable-connection message is never printed). -/
theorem smoke_failure_reporting (env : Env) (m : String)
    (h : raisedDuring env = some m) :
    (test_websocket env).2 ≠ 0 ∧
    Event.printed ("Error: " ++ m) ∈ (test_websocket env).1 ∧
    (test_websocket env).1.countP isConnectCall = 1 ∧
    (test_websocket env).1.countP isSendEvent ≤ 1 ∧
    Event.printed "WebSocket connection stable - no crashes!" ∉ (test_websocket env).1 := by
  obtain ⟨c, s1, sd, s2⟩ := env
  cases c with
  | some m0 =>
    injection h with h0
    subst h0
    exact ⟨by simp [test_websocket], by simp [test_websocket], rfl,
      show (0 : Nat) ≤ 1 by decide, by simp [test_websocket, stable_ne_errMsg]⟩
  | none =>
    cases s1 with
    | some m0 =>
      injection h with h0
      subst h0
      exact ⟨by simp [test_websocket], by simp [test_websocket], rfl,
        show (0 : Nat) ≤ 1 by decide, by simp [test_websocket, stable_ne_errMsg]⟩
    | none =>
      cases sd with
      | some m0 =>
        injection h with h0
        subst h0
        exact ⟨by simp [test_websocket], by simp [test_websocket], rfl,
          show (0 : Nat) ≤ 1 by decide, by simp [test_websocket, stable_ne_errMsg]⟩
      | none =>
        cases s2 with
        | some m0 =>
          injection h with h0
          subst h0
          exact ⟨by simp [test_websocket], by simp [test_websocket], rfl,
            show (1 : Nat) ≤ 1 by decide, by simp [test_websocket, stable_ne_errMsg]⟩
        | none => exact absurd h (by simp [raisedDuring])

/-- Concrete witness for `smoke_failure_reporting`: the handshake raises
"Connection refused". -/
theorem smoke_failure_reporting_witness :
    (test_websocket ⟨some "Connection refused", none, none, none⟩).2 ≠ 0 ∧
    Event.printed ("Error: " ++ "Connection refused") ∈
      (test_websocket ⟨some "Connection refused", none, none, none⟩).1 ∧
    (test_websocket ⟨some "Connection refused", none, none, none⟩).1.countP isConnectCall = 1 ∧
    (test_websocket ⟨some "Connection refused", none, none, none⟩).1.countP isSendEvent ≤ 1 ∧
    Event.printed "WebSocket connection stable - no crashes!" ∉
      (test_websocket ⟨some "Connection refused", none, none, none⟩).1 :=
  smoke_failure_reporting ⟨some "Connection refused", none, none, none⟩
    "Connection refused" rfl

/-- Claim C3: on every run exactly one connect call occurs, the handshake
succeeds at most once, the connection is closed at most once (no double
close), and once the connection is established it is closed on every exit
path (no leak). -/
theorem smoke_resource_discipline (env : Env) :
    (test_websocket env).1.countP isConnectCall = 1 ∧
    (test_websocket env).1.countP isConnected ≤ 1 ∧
    (test_websocket env).1.countP isClosed ≤ 1 ∧
    (env.connectResult = none → (test_websocket env).1.countP isClosed = 1) := by
  obtain ⟨c, s1, sd, s2⟩ := env
  cases c with
  | some m =>
    exact ⟨rfl, show (0 : Nat) ≤ 1 by decide, show (0 : Nat) ≤ 1 by decide,
      fun h => nomatch h⟩
  | none =>
    cases s1 with
    | some m =>
      exact ⟨rfl, show (1 : Nat) ≤ 1 by decide, show (1 : Nat) ≤ 1 by decide,
        fun _ => rfl⟩
    | none =>
      cases sd with
      | some m =>
        exact ⟨rfl, show (1 : Nat) ≤ 1 by decide, show (1 : Nat) ≤ 1 by decide,
          fun _ => rfl⟩
      | none =>
        cases s2 with
        | some m =>
          exact ⟨rfl, show (1 : Nat) ≤ 1 by decide, show (1 : Nat) ≤ 1 by decide,
            fun _ => rfl⟩
        | none =>
          exact ⟨rfl, show (1 : Nat) ≤ 1 by decide, show (1 : Nat) ≤ 1 by decide,
            fun _ => rfl⟩

/-- Concrete witness for `smoke_resource_discipline`: when the first wait
raises after a successful handshake, the connection is still closed exactly
once. -/
theorem smoke_resource_discipline_witness :
    (test_websocket ⟨none, some "timeout", none, none⟩).1.countP isClosed = 1 :=
  (smoke_resource_discipline ⟨none, some "timeout", none, none⟩).2.2.2 rfl

/-- Claim C10: on every failing run the exit status is exactly 1, and the
last thing printed is the caught exception's message prefixed with
"Error: ". -/
theorem smoke_exit_code_and_message (env : Env) (m : String)
    (h : raisedDuring env = some m) :
    (test_websocket env).2 = 1 ∧
    (test_websocket env).1.getLast? = some (.printed ("Error: " ++ m)) := by
  obtain ⟨c, s1, sd, s2⟩ := env
  cases c with
  | some m0 =>
    injection h with h0
    subst h0
    exact ⟨rfl, rfl⟩
  | none =>
    cases s1 with
    | some m0 =>
      injection h with h0
      subst h0
      exact ⟨rfl, rfl⟩
    | none =>
      cases sd with
      | some m0 =>
        injection h with h0
        subst h0
        exact ⟨rfl, rfl⟩
      | none =>
        cases s2 with
        | some m0 =>
          injection h with h0
          subst h0
          exact ⟨rfl, rfl⟩
        | none => exact absurd h (by simp [raisedDuring])

/-- Concrete witness for `smoke_exit_code_and_message`: the send raises
"broken pipe". -/
theorem smoke_exit_code_and_message_witness :
    (test_websocket ⟨none, none, some "broken pipe", none⟩).2 = 1 ∧
    (test_websocket ⟨none, none, some "broken pipe", none⟩).1.getLast? =
      some (.printed ("Error: " ++ "broken pipe")) :=
  smoke_exit_code_and_message ⟨none, none, some "broken pipe", none⟩ "broken pipe" rfl

/-- A plugin entry of the configuration: display name and library path. -/
structure Plugin where
  name : String
  libraryPath : String
deriving DecidableEq

/-- Modelled from the spec: the `ConfigFixture` value object of §3.  The
source src/fix_plugin_configs.py holds one concrete instantiation of it as
a literal document (`selector_config` below); the fixture fields are the
values embedded in that document. -/
structure ConfigFixture where
  serverRoot : String
  bindAddress : String
  bindPort : Nat
  hostName : String
  hostRoot : String
  plugins : List Plugin
deriving DecidableEq

/-- A table cell carrying an itemprop: the per-field line shape of the
document skeleton. -/
def tdProp (prop val : String) : String :=
  "                <td itemprop=\"" ++ prop ++ "\">" ++ val ++ "</td>"

/-- The opening row of a plugin entry in the document. -/
def pluginRowOpen : String :=
  "            <tr itemprop=\"plugin\" itemscope itemtype=\"http://rustybeam.net/Plugin\">"

/-- The line of the document carrying a plugin's display name. -/
def pluginNameLine (p : Plugin) : String :=
  "                <td>" ++ p.name ++ "</td>"

/-- The per-plugin fragment of the document: one table row per plugin,
repeated in sequence order. -/
def pluginFragment (p : Plugin) : List String :=
  [pluginRowOpen,
   pluginNameLine p,
   tdProp "library" p.libraryPath,
   "            </tr>"]

/-- Modelled from the spec: the fixed document skeleton up to and including
the last non-plugin host row, with each fixture field substituted at its
designated position (spec §4.1: "each field value is inserted at its
designated position in a fixed document skeleton").  The skeleton is read
off the literal document of src/fix_plugin_configs.py. -/
def skeletonHead (F : ConfigFixture) : List String :=
  ["<\\!DOCTYPE html>",
   "<html lang=\"en\">",
   "<head>",
   "    <title>Selector Handler Plugin Test Configuration</title>",
   "</head>",
   "<body>",
   "    <h1>Selector Handler Plugin Test Configuration</h1>",
   "    ",
   "    <table itemref=\"host-localhost\" itemscope itemtype=\"http://rustybeam.net/ServerConfig\">",
   "        <tbody>",
   "            <tr>",
   "                <td>Server Root</td>",
   tdProp "serverRoot" F.serverRoot,
   "            </tr>",
   "            <tr>",
   "                <td>Address</td>",
   tdProp "bindAddress" F.bindAddress,
   "            </tr>",
   "            <tr>",
   "                <td>Port</td>",
   tdProp "bindPort" (toString F.bindPort),
   "            </tr>",
   "        </tbody>",
   "    </table>",
   "    ",
   "    <table id=\"host-localhost\" itemprop=\"host\" itemscope itemtype=\"http://rustybeam.net/HostConfig\">",
   "        <tbody>",
   "            <tr>",
   "                <td>Host Name</td>",
   tdProp "hostName" F.hostName,
   "            </tr>",
   "            <tr>",
   "                <td>Host Root</td>",
   tdProp "hostRoot" F.hostRoot,
   "            </tr>"]

/-- The fixed document skeleton after the plugin rows. -/
def skeletonTail : List String :=
  ["        </tbody>",
   "    </table>",
   "</body>",
   "</html>"]

/-- Modelled from the spec: `render` of §4.1 as a line list — the fixed
skeleton with the per-plugin fragment repeated in sequence order, no
deduplication. -/
def renderLines (F : ConfigFixture) : List String :=
  skeletonHead F ++ F.plugins.flatMap pluginFragment ++ skeletonTail

/-- Modelled from the spec: `render(fixture) -> text` of §4.1. -/
def render (F : ConfigFixture) : String :=
  String.intercalate "\n" (renderLines F)

/-- The concrete fixture whose rendering src/fix_plugin_configs.py holds as
a literal. -/
def defaultFixture : ConfigFixture :=
  { serverRoot := "tests/plugins/hosts/selector-handler"
    bindAddress := "127.0.0.1"
    bindPort := 3000
    hostName := "localhost"
    hostRoot := "tests/plugins/hosts/selector-handler"
    plugins := [⟨"Selector Handler", "file://./plugins/librusty_beam_selector_handler.so"⟩,
                ⟨"File Handler", "file://./plugins/librusty_beam_file_handler.so"⟩] }

/-- The literal configuration document of src/fix_plugin_configs.py,
transcribed byte for byte (the Python source writes `<\!DOCTYPE` with a
literal backslash, and the two separator lines carry four trailing
spaces). -/
def selector_config : String :=
"<\\!DOCTYPE html>
<html lang=\"en\">
<head>
    <title>Selector Handler Plugin Test Configuration</title>
</head>
<body>
    <h1>Selector Handler Plugin Test Configuration</h1>
    
    <table itemref=\"host-localhost\" itemscope itemtype=\"http://rustybeam.net/ServerConfig\">
        <tbody>
            <tr>
                <td>Server Root</td>
                <td itemprop=\"serverRoot\">tests/plugins/hosts/selector-handler</td>
            </tr>
            <tr>
                <td>Address</td>
                <td itemprop=\"bindAddress\">127.0.0.1</td>
            </tr>
            <tr>
                <td>Port</td>
                <td itemprop=\"bindPort\">3000</td>
            </tr>
        </tbody>
    </table>
    
    <table id=\"host-localhost\" itemprop=\"host\" itemscope itemtype=\"http://rustybeam.net/HostConfig\">
        <tbody>
            <tr>
                <td>Host Name</td>
                <td itemprop=\"hostName\">localhost</td>
            </tr>
            <tr>
                <td>Host Root</td>
                <td itemprop=\"hostRoot\">tests/plugins/hosts/selector-handler</td>
            </tr>
            <tr itemprop=\"plugin\" itemscope itemtype=\"http://rustybeam.net/Plugin\">
                <td>Selector Handler</td>
                <td itemprop=\"library\">file://./plugins/librusty_beam_selector_handler.so</td>
            </tr>
            <tr itemprop=\"plugin\" itemscope itemtype=\"http://rustybeam.net/Plugin\">
                <td>File Handler</td>
                <td itemprop=\"library\">file://./plugins/librusty_beam_file_handler.so</td>
            </tr>
        </tbody>
    </table>
</body>
</html>"

/-- Two lists are equal when they agree on their first `n` elements and on
the rest. -/
theorem chunkEq (n : Nat) (l1 l2 : List Char)
    (h1 : l1.take n = l2.take n) (h2 : l1.drop n = l2.drop n) : l1 = l2 := by
  rw [← List.take_append_drop n l1, h1, h2, List.take_append_drop]

set_option maxRecDepth 8000 in
/-- The renderer agrees with the source: rendering the concrete fixture
reproduces the literal document of src/fix_plugin_configs.py exactly. -/
theorem render_defaultFixture : render defaultFixture = selector_config := by
  apply String.ext
  apply chunkEq 500
  · decide
  · apply chunkEq 500
    · decide
    · apply chunkEq 500
      · decide
      · decide

/-- Claim C4: rendering is deterministic.  `render` is a pure function of
the fixture value: two calls on the same fixture yield character-for-
character identical text. -/
theorem render_deterministic (F1 F2 : ConfigFixture) (h : F1 = F2) :
    (render F1).data = (render F2).data := by rw [h]

/-- Concrete witness for `render_deterministic` at the source's fixture. -/
theorem render_deterministic_witness :
    (render defaultFixture).data = (render defaultFixture).data :=
  render_deterministic defaultFixture defaultFixture rfl

/-- Scanner state machine over document lines: after seeing the opening row
of a plugin entry the next line carries the plugin's display name. -/
def extractAux : Bool → List String → List String
  | _, [] => []
  | true, l :: rest => l :: extractAux false rest
  | false, l :: rest =>
    if l = pluginRowOpen then extractAux true rest else extractAux false rest

/-- The plugin-name lines of a document, in document order. -/
def extractPluginNameLines (ls : List String) : List String :=
  extractAux false ls

/-- A line that is not a plugin opening row is skipped by the scanner. -/
theorem extractAux_skip (l : String) (rest : List String) (h : l ≠ pluginRowOpen) :
    extractAux false (l :: rest) = extractAux false rest := by
  simp only [extractAux]
  rw [if_neg h]

/-- A field line of the skeleton never coincides with a plugin opening row:
the two differ at their thirteenth character whatever the substituted
values are. -/
theorem tdProp_ne (prop val : String) : tdProp prop val ≠ pluginRowOpen := by
  intro h
  have h1 : (tdProp prop val).data.take 13 = pluginRowOpen.data.take 13 := by rw [h]
  simp only [tdProp, String.data_append] at h1
  have h2 : ("             " : String).data = ("            <" : String).data := h1
  exact absurd h2 (by decide)

/-- The closing row of a table row never coincides with a plugin opening
row. -/
theorem closeRow_ne : ("            </tr>" : String) ≠ pluginRowOpen := by decide

/-- The scanner turns one plugin fragment into exactly its name line. -/
theorem extractAux_fragment (p : Plugin) (rest : List String) :
    extractAux false (pluginFragment p ++ rest) =
      pluginNameLine p :: extractAux false rest := by
  show extractAux false (pluginRowOpen :: pluginNameLine p ::
    tdProp "library" p.libraryPath :: "            </tr>" :: rest) = _
  simp [extractAux, tdProp_ne "library" p.libraryPath, closeRow_ne]

/-- The scanner finds nothing in the skeleton tail. -/
theorem extractAux_skeletonTail : extractAux false skeletonTail = [] := by decide

/-- The scanner maps the rendered plugin sequence to the plugin name lines
in sequence order. -/
theorem extractAux_flatMap (P : List Plugin) :
    extractAux false (P.flatMap pluginFragment ++ skeletonTail) =
      P.map pluginNameLine := by
  induction P with
  | nil => simpa using extractAux_skeletonTail
  | cons p P ih =>
    rw [List.flatMap_cons, List.append_assoc, extractAux_fragment, ih, List.map_cons]

/-- The scanner skips the whole skeleton head: none of its lines is a
plugin opening row, whatever the fixture's field values are. -/
theorem extractAux_skeletonHead (F : ConfigFixture) (rest : List String) :
    extractAux false (skeletonHead F ++ rest) = extractAux false rest := by
  simp only [skeletonHead, List.cons_append, List.nil_append]
  rw [extractAux_skip _ _ (by decide), extractAux_skip _ _ (by decide),
    extractAux_skip _ _ (by decide), extractAux_skip _ _ (by decide),
    extractAux_skip _ _ (by decide), extractAux_skip _ _ (by decide),
    extractAux_skip _ _ (by decide), extractAux_skip _ _ (by decide),
    extractAux_skip _ _ (by decide), extractAux_skip _ _ (by decide),
    extractAux_skip _ _ (by decide), extractAux_skip _ _ (by decide),
    extractAux_skip _ _ (tdProp_ne _ _), extractAux_skip _ _ (by decide),
    extractAux_skip _ _ (by decide), extractAux_skip _ _ (by decide),
    extractAux_skip _ _ (tdProp_ne _ _), extractAux_skip _ _ (by decide),
    extractAux_skip _ _ (by decide), extractAux_skip _ _ (by decide),
    extractAux_skip _ _ (tdProp_ne _ _), extractAux_skip _ _ (by decide),
    extractAux_skip _ _ (by decide), extractAux_skip _ _ (by decide),
    extractAux_skip _ _ (by decide), extractAux_skip _ _ (by decide),
    extractAux_skip _ _ (by decide), extractAux_skip _ _ (by decide),
    extractAux_skip _ _ (by decide), extractAux_skip _ _ (tdProp_ne _ _),
    extractAux_skip _ _ (by decide), extractAux_skip _ _ (by decide),
    extractAux_skip _ _ (by decide), extractAux_skip _ _ (tdProp_ne _ _),
    extractAux_skip _ _ (by decide)]

/-- Claim C5: for every plugin sequence of a fixture, the rendered document
lists the plugin entries in exactly the order of the sequence, with no
deduplication; the name line determines the plugin's name, so distinct
names give distinct lines. -/
theorem plugin_order_preserved (F : ConfigFixture) :
    extractPluginNameLines (renderLines F) = F.plugins.map pluginNameLine ∧
    ∀ p q : Plugin, pluginNameLine p = pluginNameLine q → p.name = q.name := by
  constructor
  · show extractAux false (renderLines F) = _
    rw [renderLines, List.append_assoc, extractAux_skeletonHead, extractAux_flatMap]
  · intro p q h
    have hd := congrArg String.data h
    simp only [pluginNameLine, String.data_append, List.append_assoc] at hd
    exact String.ext (List.append_cancel_right (List.append_cancel_left hd))

/-- The first plugin of the source's fixture. -/
def selectorPlugin : Plugin :=
  ⟨"Selector Handler", "file://./plugins/librusty_beam_selector_handler.so"⟩

/-- The second plugin of the source's fixture. -/
def fileHandlerPlugin : Plugin :=
  ⟨"File Handler", "file://./plugins/librusty_beam_file_handler.so"⟩

/-- Claim C6: a fixture with bindPort 3000, hostName "localhost" and the
plugins "Selector Handler" then "File Handler" renders to a document that
contains the two plugin blocks adjacently, the Selector Handler block
first, and whose bindPort field line carries 3000. -/
theorem fixture_roundtrip (F : ConfigFixture)
    (hport : F.bindPort = 3000) (hhost : F.hostName = "localhost")
    (hplug : F.plugins = [selectorPlugin, fileHandlerPlugin]) :
    List.IsInfix (pluginFragment selectorPlugin ++ pluginFragment fileHandlerPlugin)
      (renderLines F) ∧
    tdProp "bindPort" "3000" ∈ renderLines F ∧
    tdProp "hostName" "localhost" ∈ renderLines F := by
  refine ⟨⟨skeletonHead F, skeletonTail, ?_⟩, ?_, ?_⟩
  · rw [renderLines, hplug]
    simp [List.append_assoc]
  · have h1 : tdProp "bindPort" (toString F.bindPort) ∈ renderLines F := by
      simp [renderLines, skeletonHead]
    rw [hport] at h1
    exact (show toString (3000 : Nat) = "3000" from rfl) ▸ h1
  · have h1 : tdProp "hostName" F.hostName ∈ renderLines F := by
      simp [renderLines, skeletonHead]
    rw [hhost] at h1
    exact h1

/-- Concrete witness for `fixture_roundtrip`: the source's own fixture. -/
theorem fixture_roundtrip_witness :
    List.IsInfix (pluginFragment selectorPlugin ++ pluginFragment fileHandlerPlugin)
      (renderLines defaultFixture) ∧
    tdProp "bindPort" "3000" ∈ renderLines defaultFixture ∧
    tdProp "hostName" "localhost" ∈ renderLines defaultFixture :=
  fixture_roundtrip defaultFixture rfl rfl rfl

/-- Modelled from the spec: the two failure modes the spec names for the
FixtureWriter's write (§4.1, §7): the parent directory of the output path
is missing, or it is not writable. -/
inductive IOError where
  | noSuchDir (d : String) : IOError
  | notWritable (d : String) : IOError
deriving DecidableEq

/-- Modelled from the spec: a file-system state — which directories exist,
which of them are writable, and the file contents by path. -/
structure FS where
  dirs : List String
  writableDirs : List String
  files : List (String × String)
deriving DecidableEq

/-- Modelled from the spec: the parent directory of a path — the path up
to (and not including) its last slash. -/
def parentDir (path : String) : String :=
  String.mk (((path.data.reverse.dropWhile (fun c => c ≠ '/')).drop 1).reverse)

/-- Modelled from the spec: `write(path, text)` of §4.1 — truncates or
creates the file and writes the full text in one step, or fails with an
`IOError` when the parent directory is missing or not writable; the scoped
handle is released on every exit path, so the state is either fully
updated or untouched. -/
def fsWrite (fs : FS) (path text : String) : Except IOError FS :=
  if parentDir path ∈ fs.dirs then
    if parentDir path ∈ fs.writableDirs then
      Except.ok (FS.mk fs.dirs fs.writableDirs
        ((path, text) :: fs.files.filter (fun pr => pr.1 != path)))
    else Except.error (IOError.notWritable (parentDir path))
  else Except.error (IOError.noSuchDir (parentDir path))

/-- The content of a file of the file system, if present. -/
def readFile (fs : FS) (path : String) : Option String :=
  (fs.files.find? (fun pr => pr.1 == path)).map (fun pr => pr.2)

/-- The output path of src/fix_plugin_configs.py. -/
def cfgPath : String := "tests/plugins/configs/selector-handler-config.html"

/-- The parent directory of the output path. -/
def cfgDir : String := "tests/plugins/configs"

theorem parentDir_cfgPath : parentDir cfgPath = cfgDir := by decide

/-- Embedding of the script body of src/fix_plugin_configs.py: write the
literal document to the fixture path; when the write raises, the exception
propagates uncaught and the print is never reached; otherwise print
"Fixed selector-handler config".  Returns the final file system together
with the printed lines, or the uncaught error. -/
def fixScript (fs : FS) : Except IOError (FS × List String) :=
  match fsWrite fs cfgPath selector_config with
  | .error e => .error e
  | .ok fs1 => .ok (fs1, ["Fixed selector-handler config"])

/-- The lines a run of the script prints (an erroring run prints none). -/
def outMessages (r : Except IOError (FS × List String)) : List String :=
  match r with
  | .error _ => []
  | .ok pr => pr.2

/-- Claim C7: writing the same fixture text twice to the same path is
idempotent — the second write also succeeds and leaves the file's content
exactly what a single write produces. -/
theorem write_idempotent (fs : FS) (path text : String) (fs1 : FS)
    (h : fsWrite fs path text = Except.ok fs1) :
    ∃ fs2, fsWrite fs1 path text = Except.ok fs2 ∧
      readFile fs2 path = readFile fs1 path ∧
      readFile fs1 path = some text := by
  by_cases h1 : parentDir path ∈ fs.dirs
  · by_cases h2 : parentDir path ∈ fs.writableDirs
    · rw [fsWrite, if_pos h1, if_pos h2] at h
      injection h with h3
      subst h3
      have hw2 : fsWrite (FS.mk fs.dirs fs.writableDirs
          ((path, text) :: fs.files.filter (fun pr => pr.1 != path))) path text =
          Except.ok (FS.mk fs.dirs fs.writableDirs
            ((path, text) :: ((path, text) ::
              fs.files.filter (fun pr => pr.1 != path)).filter
                (fun pr => pr.1 != path))) := by
        rw [fsWrite]
        dsimp only
        rw [if_pos h1, if_pos h2]
      exact ⟨_, hw2, by simp [readFile, List.find?], by simp [readFile, List.find?]⟩
    · rw [fsWrite, if_pos h1, if_neg h2] at h
      simp at h
  · rw [fsWrite, if_neg h1] at h
    simp at h

/-- Concrete witness for `write_idempotent`. -/
theorem write_idempotent_witness :
    ∃ fs2, fsWrite (FS.mk ["tests"] ["tests"] [("tests/out.html", "x")])
        "tests/out.html" "x" = Except.ok fs2 ∧
      readFile fs2 "tests/out.html" =
        readFile (FS.mk ["tests"] ["tests"] [("tests/out.html", "x")]) "tests/out.html" ∧
      readFile (FS.mk ["tests"] ["tests"] [("tests/out.html", "x")]) "tests/out.html" =
        some "x" :=
  write_idempotent (FS.mk ["tests"] ["tests"] []) "tests/out.html" "x"
    (FS.mk ["tests"] ["tests"] [("tests/out.html", "x")]) rfl

/-- Claim C8: when the parent directory of the output path is missing or
not writable, the write fails with an `IOError`, and the script surfaces
exactly that error to its caller unmodified — no handler intercepts it, no
retry occurs, no other error is substituted. -/
theorem write_failure_surfaced (fs : FS)
    (h : cfgDir ∉ fs.dirs ∨ cfgDir ∉ fs.writableDirs) :
    ∃ e, fsWrite fs cfgPath selector_config = Except.error e ∧
      fixScript fs = Except.error e := by
  by_cases h1 : cfgDir ∈ fs.dirs
  · have h2 : cfgDir ∉ fs.writableDirs := h.resolve_left (not_not_intro h1)
    have hw : fsWrite fs cfgPath selector_config =
        Except.error (IOError.notWritable cfgDir) := by
      rw [fsWrite, parentDir_cfgPath, if_pos h1, if_neg h2]
    exact ⟨_, hw, by rw [fixScript, hw]⟩
  · have hw : fsWrite fs cfgPath selector_config =
        Except.error (IOError.noSuchDir cfgDir) := by
      rw [fsWrite, parentDir_cfgPath, if_neg h1]
    exact ⟨_, hw, by rw [fixScript, hw]⟩

/-- Concrete witness for `write_failure_surfaced`: an empty file system. -/
theorem write_failure_surfaced_witness :
    ∃ e, fsWrite (FS.mk [] [] []) cfgPath selector_config = Except.error e ∧
      fixScript (FS.mk [] [] []) = Except.error e :=
  write_failure_surfaced (FS.mk [] [] []) (Or.inl (by decide))

/-- A file system on which the script's write succeeds. -/
def goodFS : FS := FS.mk [cfgDir] [cfgDir] []

/-- Counterexample to claim C9 as stated: a successful run of the writer
does emit a message reporting the write's success — the script prints
"Fixed selector-handler config" after the write — so it is not the case
that no success message is emitted. -/
theorem writer_emits_success_message :
    outMessages (fixScript goodFS) = ["Fixed selector-handler config"] ∧
    outMessages (fixScript goodFS) ≠ [] := by
  refine ⟨rfl, ?_⟩
  intro hcontra
  have h2 : (["Fixed selector-handler config"] : List String) = ([] : List String) :=
    hcontra
  exact absurd h2 (by decide)

/-- Claim C9 amended: the writer makes no failure report — a failing run
prints nothing and the IOError surfaces only as an uncaught error — while
a successful run prints exactly "Fixed selector-handler config". -/
theorem writer_run_messages (fs : FS) :
    ((∃ e, fixScript fs = Except.error e) ∧ outMessages (fixScript fs) = []) ∨
    (∃ fs1, fixScript fs = Except.ok (fs1, ["Fixed selector-handler config"]) ∧
      outMessages (fixScript fs) = ["Fixed selector-handler config"]) := by
  cases hw : fsWrite fs cfgPath selector_config with
  | error e =>
    have hfx : fixScript fs = Except.error e := by rw [fixScript, hw]
    exact Or.inl ⟨⟨e, hfx⟩, by rw [hfx]; rfl⟩
  | ok fs1 =>
    have hfx : fixScript fs = Except.ok (fs1, ["Fixed selector-handler config"]) := by
      rw [fixScript, hw]
    exact Or.inr ⟨fs1, hfx, by rw [hfx]; rfl⟩

/-- Concrete witness for `plugin_order_preserved`: the source's fixture,
with the name-line hypothesis discharged reflexively. -/
theorem plugin_order_preserved_witness :
    extractPluginNameLines (renderLines defaultFixture) =
      defaultFixture.plugins.map pluginNameLine ∧
    selectorPlugin.name = selectorPlugin.name :=
  ⟨(plugin_order_preserved defaultFixture).1,
   (plugin_order_preserved defaultFixture).2 selectorPlugin selectorPlugin rfl⟩
